import Mathlib

/-!
Shallow embedding of the predictive irrigation recommendation engine of
`src/app.py` (UVS Dashboard).  Python floats are modelled as exact
rationals, integers as `ℤ`, calendar dates as integer day numbers, and
the current instant `now` as an integer day number.  Rationals are
represented by the transparent fraction type `Q` below (numerator /
positive denominator, not reduced) so that every arithmetic operation
reduces inside the kernel and concrete runs of the engine can be
settled by `decide`.  Python's builtin `round` (round half to even) is
modelled by `pyRound`; `round(x, 1)` by `pyRound1`.  Display-only
strings (recommendation messages, station names) and record fields the
engine never reads (hours, notes, person, truck, attachments) are not
modelled.
-/

namespace UVS

/-- An exact rational: `num / den` with `den > 0` for every value built
by the operations below from integer-denominator inputs.  Values are
not reduced to lowest terms, so `=` is representation equality; the
engine's statements only ever compare integer outputs or values of
identical provenance.  Division by zero (never exercised: every
division in the source is guarded by a positivity or non-emptiness
check) yields a junk value with `den = 0`. -/
structure Q where
  num : ℤ
  den : ℤ
deriving Repr, DecidableEq

def Q.add (a b : Q) : Q := ⟨a.num * b.den + b.num * a.den, a.den * b.den⟩

def Q.sub (a b : Q) : Q := ⟨a.num * b.den - b.num * a.den, a.den * b.den⟩

def Q.mul (a b : Q) : Q := ⟨a.num * b.num, a.den * b.den⟩

/-- Division, keeping the denominator positive. -/
def Q.div (a b : Q) : Q :=
  if b.num < 0 then ⟨-(a.num * b.den), -(a.den * b.num)⟩
  else ⟨a.num * b.den, a.den * b.num⟩

def Q.neg (a : Q) : Q := ⟨-a.num, a.den⟩

instance : Add Q := ⟨Q.add⟩

instance : Sub Q := ⟨Q.sub⟩

instance : Mul Q := ⟨Q.mul⟩

instance : Div Q := ⟨Q.div⟩

instance : Neg Q := ⟨Q.neg⟩

instance : Zero Q := ⟨⟨0, 1⟩⟩

instance (n : ℕ) : OfNat Q n := ⟨⟨(n : ℤ), 1⟩⟩

instance : IntCast Q := ⟨fun n => ⟨n, 1⟩⟩

instance : NatCast Q := ⟨fun n => ⟨(n : ℤ), 1⟩⟩

/-- Cross-multiplication order (valid because denominators stay
positive). -/
instance : LT Q := ⟨fun a b => a.num * b.den < b.num * a.den⟩

instance : LE Q := ⟨fun a b => a.num * b.den ≤ b.num * a.den⟩

instance (a b : Q) : Decidable (a < b) :=
  inferInstanceAs (Decidable (a.num * b.den < b.num * a.den))

instance (a b : Q) : Decidable (a ≤ b) :=
  inferInstanceAs (Decidable (a.num * b.den ≤ b.num * a.den))

/-- `⌊a⌋` for `den > 0`: flooring integer division. -/
def Q.floor (a : Q) : ℤ := Int.fdiv a.num a.den

/-- Python's builtin `round` on an exact value: round half to even. -/
def pyRound (q : Q) : ℤ :=
  let f := q.floor
  let r := q - ((f : ℤ) : Q)
  if r < (1 : Q) / 2 then f
  else if (1 : Q) / 2 < r then f + 1
  else if f % 2 = 0 then f else f + 1

/-- Python's `round(x, 1)`: round half to even at one decimal place. -/
def pyRound1 (q : Q) : Q :=
  ((pyRound (q * 10) : ℤ) : Q) / 10

/-- `max(0, min(100, z))`, the clamp applied by `predict_moisture`. -/
def clamp_pct (z : ℤ) : ℤ := max 0 (min 100 z)

/-- A field visit as stored in a site's `visits` list (app.py data model).
Only the fields read by the engine are modelled: `date` (a calendar day
number; the source stores `'%Y-%m-%d'` strings) and the aggregate
`moisture` percentage (an integer; the source stores `round(avg)`). -/
structure Visit where
  date : ℤ
  moisture : ℤ
deriving Repr, DecidableEq

/-- A site record (app.py `st.session_state.sites` entries), restricted to
the fields the engine reads.  Soil type and maturity are the raw strings
used as dictionary keys in the source. -/
structure Site where
  name : String
  soil_type : String
  maturity : String
  trees : ℤ
  trees_litres : ℤ
  tubestock : ℤ
  tubestock_litres : ℤ
  turf_m2 : ℤ
  turf_litres : ℤ
  visits : List Visit
deriving Repr, DecidableEq

/-- The weather snapshot shape produced by `get_site_weather` /
`update_weather` (app.py lines 190-197): rainfall totals in mm and
temperatures in °C. -/
structure WeatherData where
  last_7d : Q
  next_24h : Q
  next_7d : Q
  temp : Q
  temp_max : Q
  temp_min : Q
deriving Repr, DecidableEq

/-- The `priority_thresholds` configuration (app.py lines 133-138):
`critical < medium < low`, validated at the Settings boundary
(app.py lines 1860-1866). -/
structure Thresholds where
  critical : ℤ
  medium : ℤ
  low : ℤ
deriving Repr, DecidableEq

/-- app.py lines 148-149: nominal water volume per visit. -/
def calc_water (site : Site) : ℤ :=
  site.trees * site.trees_litres + site.tubestock * site.tubestock_litres
    + site.turf_m2 * site.turf_litres

/-- Python `l[-5:]`: the last five elements (all of them when fewer). -/
def lastFive {α : Type} (l : List α) : List α := l.drop (l.length - 5)

/-- `base` table of `predict_moisture` (app.py line 211), with the
`dict.get` default of 35 for unrecognized soil types. -/
def baseline_table (soil : String) : ℤ :=
  if soil = "Clay Loam" then 40
  else if soil = "Sandy Loam" then 25
  else if soil = "Loam" then 35
  else if soil = "Clay" then 45
  else if soil = "Sand" then 15
  else 35

/-- `daily_drop_rate` table (app.py lines 242-243 and 326-327), with the
`dict.get` default of 2.5. -/
def daily_drop_rate (soil : String) : Q :=
  if soil = "Clay Loam" then 2
  else if soil = "Sandy Loam" then 4
  else if soil = "Loam" then 3
  else if soil = "Clay" then (3 : Q) / 2
  else if soil = "Sand" then 5
  else (5 : Q) / 2

/-- `maturity_factors` table (app.py line 268), default 0. -/
def maturity_factor (m : String) : ℤ :=
  if m = "Establishment" then -3
  else if m = "Young" then -1
  else if m = "Mature" then 2
  else 0

/-- The pre-clamp prediction of `predict_moisture` when the site has no
visit history (app.py lines 275-281). -/
def predict_raw_no_history (site : Site) (w : WeatherData) : Q :=
  let baseline := baseline_table site.soil_type
  let rain_effect := w.last_7d * 2
  let predicted := ((baseline : ℤ) : Q) + rain_effect - 10
  if w.next_24h > 10 then predicted + 15
  else if w.next_24h > 5 then predicted + 8
  else predicted

/-- The pre-clamp prediction of `predict_moisture` when the site has at
least one visit (app.py lines 217-270).  `now` is the current day
number, so `days_since = now - lastVisitDate` matches
`(datetime.now() - last_visit_date).days`. -/
def predict_raw_with_history (site : Site) (w : WeatherData) (now : ℤ) : Q :=
  let recent_visits := lastFive site.visits
  let trend : Q :=
    if 2 ≤ recent_visits.length then
      let recent_moistures := recent_visits.map (fun v => ((v.moisture : ℤ) : Q))
      let mid_point := recent_moistures.length / 2
      let first_half := recent_moistures.take mid_point
      let second_half := recent_moistures.drop mid_point
      let first_half_avg :=
        if 0 < mid_point then first_half.sum / (first_half.length : Q)
        else recent_moistures.headD 0
      let second_half_avg := second_half.sum / (second_half.length : Q)
      second_half_avg - first_half_avg
    else 0
  let most_recent : ℤ := (site.visits.getLastD ⟨0, 0⟩).moisture
  let days_since : ℤ := now - (site.visits.getLastD ⟨0, 0⟩).date
  let drop_rate := daily_drop_rate site.soil_type
  let time_adjustment : Q := -1 * ((days_since : Q) * drop_rate)
  let rain_adjustment : Q :=
    (if w.last_7d > 20 then 15
     else if w.last_7d > 10 then 8
     else if w.last_7d > 5 then 4
     else 0)
    + (if w.next_24h > 10 then 12
       else if w.next_24h > 5 then 6
       else 0)
  let trend_factor := trend * ((3 : Q) / 10)
  let predicted := ((most_recent : ℤ) : Q) + time_adjustment + rain_adjustment + trend_factor
  predicted + ((maturity_factor site.maturity : ℤ) : Q)

/-- app.py lines 209-283, `predict_moisture`.  The site-specific weather
(fetched inside the source function via `get_site_weather`) is passed
explicitly as `w`. -/
def predict_moisture (site : Site) (w : WeatherData) (now : ℤ) : ℤ :=
  if site.visits.isEmpty then
    clamp_pct (pyRound (predict_raw_no_history site w))
  else
    clamp_pct (pyRound (predict_raw_with_history site w now))

/-- The value returned by `predict_days_until_critical` once the
no-visits guard has passed (app.py lines 291-329).  Every path of the
source past that guard returns a number, never `None`. -/
def days_until_critical_core (site : Site) (w : WeatherData) (th : Thresholds)
    (now : ℤ) : ℤ :=
  let current_moisture := predict_moisture site w now
  if current_moisture ≤ th.critical then 0
  else
    let soil_default : ℤ :=
      let drop_rate := daily_drop_rate site.soil_type
      let gap : ℤ := current_moisture - th.critical
      max 0 (pyRound ((gap : Q) / drop_rate))
    if 2 ≤ site.visits.length then
      let recent_visits := lastFive site.visits
      let moisture_drops : List Q :=
        (recent_visits.zip (recent_visits.drop 1)).filterMap (fun p =>
          let days_between := p.2.date - p.1.date
          if 0 < days_between then
            some (((p.1.moisture - p.2.moisture : ℤ) : Q) / ((days_between : ℤ) : Q))
          else none)
      if moisture_drops ≠ [] then
        let avg0 := moisture_drops.sum / (moisture_drops.length : Q)
        let avg_daily_drop := if w.next_7d > 10 then avg0 * ((1 : Q) / 2) else avg0
        if 0 < avg_daily_drop then
          let gap : ℤ := current_moisture - th.critical
          max 0 (pyRound ((gap : Q) / avg_daily_drop))
        else soil_default
      else soil_default
    else soil_default

/-- app.py lines 286-329, `predict_days_until_critical`: `None` exactly
when the site has no visits, otherwise the horizon from
`days_until_critical_core`. -/
def predict_days_until_critical (site : Site) (w : WeatherData)
    (th : Thresholds) (now : ℤ) : Option ℤ :=
  if site.visits.isEmpty then none
  else some (days_until_critical_core site w th now)

/-- app.py lines 331-362, `calculate_optimal_water`. -/
def calculate_optimal_water (site : Site) : ℤ :=
  let base_water := calc_water site
  if site.visits.length < 3 then base_water
  else
    let recent_visits := lastFive site.visits
    let moisture_improvements : List ℤ :=
      (recent_visits.zip (recent_visits.drop 1)).filterMap (fun p =>
        let improvement := p.2.moisture - p.1.moisture
        if 0 < improvement then some improvement else none)
    if moisture_improvements ≠ [] then
      let avg_improvement : Q :=
        ((moisture_improvements.sum : ℤ) : Q) / (moisture_improvements.length : Q)
      if avg_improvement < 5 then pyRound (((base_water : ℤ) : Q) * ((85 : Q) / 100))
      else if 15 < avg_improvement then pyRound (((base_water : ℤ) : Q) * ((11 : Q) / 10))
      else base_water
    else base_water

/-- The tuple returned by `get_recommendation` (app.py lines 364-398)
without the display message: priority tier string, predicted moisture
(`none` in the no-data branch), and water volume. -/
structure Recommendation where
  priority : String
  moisture : Option ℤ
  water : ℤ
deriving Repr, DecidableEq

/-- app.py lines 364-398, `get_recommendation`.  The message string
(which also carries the rain-delay augmentation) is display text and is
not modelled; tier, moisture and water are exactly the source's other
return components. -/
def get_recommendation (site : Site) (w : WeatherData) (th : Thresholds)
    (now : ℤ) : Recommendation :=
  let moisture := predict_moisture site w now
  let water := calc_water site
  if site.visits.isEmpty then
    { priority := "⚪ NO DATA", moisture := none, water := water }
  else if moisture < th.critical then
    { priority := "🔴 HIGH", moisture := some moisture, water := water }
  else if moisture < th.medium then
    { priority := "🟡 MEDIUM", moisture := some moisture, water := water }
  else if moisture < th.low then
    { priority := "🟢 LOW", moisture := some moisture, water := water }
  else
    { priority := "⚪ OPTIMAL", moisture := some moisture, water := water }

/-- The station assignment used by `get_site_weather` (app.py lines
46-53): only the coordinate enters the fetch; station name, BoM id and
distance are display-only and not modelled. -/
structure StationInfo where
  lat : Q
  lon : Q
deriving Repr, DecidableEq

/-- Lookup in a Python dict modelled as an association list where the
most recent insertion is at the head. -/
def dictGet {α : Type} (l : List (String × α)) (k : String) : Option α :=
  (l.find? (fun p => p.1 == k)).map Prod.snd

/-- The slice of `st.session_state` read and written by
`get_site_weather`: the process-wide default snapshot
(`st.session_state.weather`), the weather cache
(`st.session_state.site_weather`) and the station assignments
(`st.session_state.weather_stations`). -/
structure SessionState where
  weather : WeatherData
  site_weather : List (String × WeatherData)
  weather_stations : List (String × StationInfo)
deriving Repr, DecidableEq

/-- A successfully received Open-Meteo response body, as read by
app.py lines 180-188: the daily precipitation series (entries may be
`null`, modelled as `none`), the daily max/min temperature series and
the current temperature.  Failures to obtain such a body (timeout,
connection error, non-200 status) are modelled as the provider
returning `none`. -/
structure RawForecast where
  precipitation_sum : List (Option Q)
  temperature_2m_max : List Q
  temperature_2m_min : List Q
  current_temperature : Q
deriving Repr, DecidableEq

/-- app.py lines 181-197: derive the cached `WeatherData` from a
response body.  Returns `none` for the malformed-payload case the
source turns into a fallback via its `except` clause: a `null` at
index 7 of the precipitation series makes `round(next_24h, 1)` raise. -/
def parse_forecast (raw : RawForecast) : Option WeatherData :=
  let last_7d := ((raw.precipitation_sum.take 7).filterMap id).sum
  let next_24hO : Option Q :=
    if 7 < raw.precipitation_sum.length then
      (raw.precipitation_sum.get? 7).getD none
    else some 0
  match next_24hO with
  | none => none
  | some next_24h =>
    let next_7d := (((raw.precipitation_sum.drop 7).take 7).filterMap id).sum
    let current_temp := raw.current_temperature
    let temp_max :=
      if 7 < raw.temperature_2m_max.length then
        (raw.temperature_2m_max.get? 7).getD current_temp
      else current_temp
    let temp_min :=
      if 7 < raw.temperature_2m_min.length then
        (raw.temperature_2m_min.get? 7).getD current_temp
      else current_temp
    some { last_7d := pyRound1 last_7d, next_24h := pyRound1 next_24h,
           next_7d := pyRound1 next_7d, temp := pyRound1 current_temp,
           temp_max := pyRound1 temp_max, temp_min := pyRound1 temp_min }

/-- Melbourne CBD coordinate, the fallback station of app.py line 160. -/
def melbourneCBD : StationInfo :=
  { lat := ⟨-378136, 10000⟩, lon := ⟨1449631, 10000⟩ }

/-- app.py lines 153-167: resolve the station assigned to a site,
falling back to Melbourne CBD. -/
def station_for (st : SessionState) (site_name : String) : StationInfo :=
  match dictGet st.weather_stations site_name with
  | some info => info
  | none => melbourneCBD

/-- Result of one `get_site_weather` call.  `st` is the session state
after the call.  `fetched` and `usedFallback` instrument which branch
of the source produced the return: `fetched` records that the provider
request was issued (the source's `requests.get`), `usedFallback` that
the call returned the process-wide default snapshot because that
request failed (the source's non-200 / `except` paths). -/
structure GetWeatherResult where
  weather : WeatherData
  station : StationInfo
  st : SessionState
  fetched : Bool
  usedFallback : Bool
deriving Repr, DecidableEq

/-- app.py lines 151-207, `get_site_weather`.  `bucket` is the
truncated-timestamp component of the cache key
(`datetime.now().strftime('%Y%m%d%H%M')[:11]`, an 11-character string,
i.e. a 10-minute bucket); `provider` models the external Open-Meteo
service as a function of the station coordinate, returning `none` on
timeout / connection error / non-success status.  The function is
total: every failure path returns the session default snapshot. -/
def get_site_weather (st : SessionState) (site_name : String) (bucket : String)
    (provider : Q → Q → Option RawForecast) : GetWeatherResult :=
  let station := station_for st site_name
  let cache_key := site_name ++ "_" ++ bucket
  match dictGet st.site_weather cache_key with
  | some w =>
    { weather := w, station := station, st := st,
      fetched := false, usedFallback := false }
  | none =>
    match provider station.lat station.lon with
    | some raw =>
      match parse_forecast raw with
      | some w =>
        { weather := w, station := station,
          st := { st with site_weather := (cache_key, w) :: st.site_weather },
          fetched := true, usedFallback := false }
      | none =>
        { weather := st.weather, station := station, st := st,
          fetched := true, usedFallback := true }
    | none =>
      { weather := st.weather, station := station, st := st,
        fetched := true, usedFallback := true }

/-- Two consecutive `get_site_weather` calls (first for `n1`, then for
`n2` on the resulting session state, both within the same time bucket),
returning the number of provider fetches issued. -/
def two_get_fetches (st : SessionState) (n1 n2 : String) (bucket : String)
    (provider : Q → Q → Option RawForecast) : ℕ :=
  let r1 := get_site_weather st n1 bucket provider
  let r2 := get_site_weather r1.st n2 bucket provider
  (cond r1.fetched 1 0) + (cond r2.fetched 1 0)

/-! Concrete inputs used by the scenario theorems, witnesses and
counterexamples. -/

/-- A weather snapshot with no trailing or forecast rain. -/
def wZero : WeatherData :=
  { last_7d := 0, next_24h := 0, next_7d := 0, temp := 0, temp_max := 0,
    temp_min := 0 }

/-- The default `priority_thresholds` (app.py lines 67 and 133-138). -/
def defaultThresholds : Thresholds := { critical := 25, medium := 35, low := 45 }

/-- The initial process-wide default weather (app.py line 127). -/
def default_weather : WeatherData :=
  { last_7d := ⟨125, 10⟩, next_24h := ⟨52, 10⟩, next_7d := ⟨183, 10⟩,
    temp := 22, temp_max := 22, temp_min := 12 }

/-- Scenario A of the spec: soil type Sand, a single visit at moisture
30% five days before `now`.  The scenario fixes no plant maturity, so a
string outside the maturity table (adjustment 0) is used. -/
def siteScenarioA : Site :=
  { name := "Scenario A", soil_type := "Sand", maturity := "Semi Mature",
    trees := 10, trees_litres := 100, tubestock := 0, tubestock_litres := 0,
    turf_m2 := 0, turf_litres := 0,
    visits := [{ date := 0, moisture := 30 }] }

/-- Scenario D of the spec: three visits on consecutive days with
moisture sequence [20, 30, 45]; nominal volume 1000 L. -/
def siteScenarioD : Site :=
  { name := "Scenario D", soil_type := "Loam", maturity := "Young",
    trees := 5, trees_litres := 200, tubestock := 0, tubestock_litres := 0,
    turf_m2 := 0, turf_litres := 0,
    visits := [{ date := 0, moisture := 20 }, { date := 1, moisture := 30 },
               { date := 2, moisture := 45 }] }

/-- Like Scenario D but with moisture sequence [20, 36, 53]: both
improvements exceed 15, so the average improvement (16.5) exceeds 15. -/
def siteScenarioD16 : Site :=
  { name := "Scenario D16", soil_type := "Loam", maturity := "Young",
    trees := 5, trees_litres := 200, tubestock := 0, tubestock_litres := 0,
    turf_m2 := 0, turf_litres := 0,
    visits := [{ date := 0, moisture := 20 }, { date := 1, moisture := 36 },
               { date := 2, moisture := 53 }] }

/-- A site whose optimizer output differs from its nominal volume
(average improvement 16.5 > 15, so the optimizer scales by 1.10). -/
def siteAdjusted : Site :=
  { name := "Adjusted", soil_type := "Clay Loam", maturity := "Mature",
    trees := 5, trees_litres := 200, tubestock := 0, tubestock_litres := 0,
    turf_m2 := 0, turf_litres := 0,
    visits := [{ date := 0, moisture := 20 }, { date := 1, moisture := 36 },
               { date := 2, moisture := 53 }] }

/-- A site with only two visits, for the insufficient-data witness. -/
def siteTwoVisits : Site :=
  { name := "Two Visits", soil_type := "Sand", maturity := "Establishment",
    trees := 3, trees_litres := 150, tubestock := 20, tubestock_litres := 5,
    turf_m2 := 10, turf_litres := 10,
    visits := [{ date := 0, moisture := 10 }, { date := 2, moisture := 60 }] }

/-- A site predicted at exactly the medium threshold: one visit at
moisture 35 on day `now`, no rain, maturity outside the table. -/
def siteBoundary : Site :=
  { name := "Boundary", soil_type := "Clay Loam", maturity := "Semi Mature",
    trees := 1, trees_litres := 100, tubestock := 0, tubestock_litres := 0,
    turf_m2 := 0, turf_litres := 0,
    visits := [{ date := 0, moisture := 35 }] }

/-- A site with one low-moisture visit, for the horizon witness. -/
def siteLowMoisture : Site :=
  { name := "Low Moisture", soil_type := "Loam", maturity := "Young",
    trees := 1, trees_litres := 100, tubestock := 0, tubestock_litres := 0,
    turf_m2 := 0, turf_litres := 0,
    visits := [{ date := 0, moisture := 10 }] }

/-- A session state with two sites assigned the same station coordinate
and an empty weather cache. -/
def stTwoSites : SessionState :=
  { weather := default_weather, site_weather := [],
    weather_stations := [("Site A", ⟨⟨10, 1⟩, ⟨20, 1⟩⟩),
                         ("Site B", ⟨⟨10, 1⟩, ⟨20, 1⟩⟩)] }

/-- A well-formed provider response: 14 daily entries, no nulls. -/
def rawOK : RawForecast :=
  { precipitation_sum := List.replicate 14 (some 0),
    temperature_2m_max := List.replicate 14 20,
    temperature_2m_min := List.replicate 14 10,
    current_temperature := 18 }

/-- A provider that always answers with `rawOK`. -/
def providerOK : Q → Q → Option RawForecast := fun _ _ => some rawOK

/-- A provider whose every fetch fails (timeout / connection error /
non-success status). -/
def providerFail : Q → Q → Option RawForecast := fun _ _ => none

/-! Theorems settling the claims. -/

/-- Both branches of the clamp land in [0, 100]. -/
theorem clamp_pct_mem (z : ℤ) : 0 ≤ clamp_pct z ∧ clamp_pct z ≤ 100 := by
  unfold clamp_pct
  refine ⟨le_max_left 0 _, max_le (by norm_num) ?_⟩
  exact min_le_left 100 z

/-- C5: for every site (any visit history, including none) and every
weather snapshot (arbitrarily large rainfall, arbitrarily old or even
future-dated last visit), `predict_moisture` returns an integer in
[0, 100]. -/
theorem predict_moisture_in_range (site : Site) (w : WeatherData) (now : ℤ) :
    0 ≤ predict_moisture site w now ∧ predict_moisture site w now ≤ 100 := by
  unfold predict_moisture
  by_cases h : site.visits.isEmpty = true
  · rw [if_pos h]; exact clamp_pct_mem _
  · rw [if_neg h]; exact clamp_pct_mem _

/-- C6: `predict_days_until_critical` returns `none` exactly when the
site has zero visits, and returns `some 0` whenever the site has a
visit and its predicted current moisture is at or below the critical
threshold. -/
theorem days_until_critical_none_iff_no_visits (site : Site) (w : WeatherData)
    (th : Thresholds) (now : ℤ) :
    (predict_days_until_critical site w th now = none ↔ site.visits = []) ∧
    (site.visits ≠ [] → predict_moisture site w now ≤ th.critical →
      predict_days_until_critical site w th now = some 0) := by
  constructor
  · cases hv : site.visits with
    | nil => simp [predict_days_until_critical, hv]
    | cons v vs => simp [predict_days_until_critical, hv]
  · intro hv hm
    have hne : site.visits.isEmpty = false := by
      cases hcase : site.visits with
      | nil => exact absurd hcase hv
      | cons v vs => rfl
    unfold predict_days_until_critical
    rw [if_neg (by simp [hne])]
    unfold days_until_critical_core
    rw [if_pos hm]

/-- C6 witness: a one-visit site predicted at moisture 10 against
critical threshold 25 yields a horizon of `some 0`. -/
theorem days_until_critical_none_iff_no_visits_witness :
    predict_days_until_critical siteLowMoisture wZero defaultThresholds 0 = some 0 :=
  (days_until_critical_none_iff_no_visits siteLowMoisture wZero defaultThresholds 0).2
    (by decide) (by decide)

/-- C8: with fewer than three visits, whatever their moisture values,
the optimizer returns exactly the nominal volume. -/
theorem optimal_water_nominal_when_few_visits (site : Site)
    (h : site.visits.length < 3) :
    calculate_optimal_water site = calc_water site := by
  unfold calculate_optimal_water
  rw [if_pos h]

/-- C8 witness: a two-visit site with a large moisture jump still gets
its nominal volume. -/
theorem optimal_water_nominal_when_few_visits_witness :
    siteTwoVisits.visits.length < 3 ∧
    calculate_optimal_water siteTwoVisits = calc_water siteTwoVisits :=
  ⟨by decide, optimal_water_nominal_when_few_visits siteTwoVisits (by decide)⟩

/-- C10: for every site, the optimizer output is the nominal volume,
the nominal volume scaled by 0.85 and rounded, or the nominal volume
scaled by 1.10 and rounded. -/
theorem optimal_water_three_values (site : Site) :
    calculate_optimal_water site = calc_water site ∨
    calculate_optimal_water site = pyRound (((calc_water site : ℤ) : Q) * ((85 : Q) / 100)) ∨
    calculate_optimal_water site = pyRound (((calc_water site : ℤ) : Q) * ((11 : Q) / 10)) := by
  simp only [calculate_optimal_water]
  split
  · exact Or.inl rfl
  · split
    · split
      · exact Or.inr (Or.inl rfl)
      · split
        · exact Or.inr (Or.inr rfl)
        · exact Or.inl rfl
    · exact Or.inl rfl

/-- C7: under strictly ascending thresholds, the tier comparisons form
a strict-less-than cascade: moisture in `[critical, medium)` is Medium,
moisture in `[medium, low)` is Low, and in particular a predicted
moisture exactly equal to the medium threshold lands in Low, not
Medium. -/
theorem tier_boundary_medium_is_low (site : Site) (w : WeatherData)
    (th : Thresholds) (now : ℤ) (hcm : th.critical < th.medium)
    (hml : th.medium < th.low) (hv : site.visits ≠ []) :
    (th.critical ≤ predict_moisture site w now →
      predict_moisture site w now < th.medium →
      (get_recommendation site w th now).priority = "🟡 MEDIUM") ∧
    (th.medium ≤ predict_moisture site w now →
      predict_moisture site w now < th.low →
      (get_recommendation site w th now).priority = "🟢 LOW") ∧
    (predict_moisture site w now = th.medium →
      (get_recommendation site w th now).priority = "🟢 LOW") := by
  have hne : site.visits.isEmpty = false := by
    cases hcase : site.visits with
    | nil => exact absurd hcase hv
    | cons v vs => rfl
  refine ⟨fun h1 h2 => ?_, fun h1 h2 => ?_, fun h1 => ?_⟩
  · unfold get_recommendation
    rw [if_neg (by simp [hne]), if_neg (not_lt.mpr h1), if_pos h2]
  · unfold get_recommendation
    rw [if_neg (by simp [hne]), if_neg (not_lt.mpr (le_trans (le_of_lt hcm) h1)),
      if_neg (not_lt.mpr h1), if_pos h2]
  · unfold get_recommendation
    rw [if_neg (by simp [hne]), if_neg (not_lt.mpr (h1 ▸ le_of_lt hcm)),
      if_neg (not_lt.mpr (le_of_eq h1.symm)), if_pos (h1 ▸ hml)]

/-- C7 witness: thresholds 25/35/45 and a site predicted at exactly 35
give tier Low. -/
theorem tier_boundary_medium_is_low_witness :
    predict_moisture siteBoundary wZero 0 = 35 ∧
    (get_recommendation siteBoundary wZero defaultThresholds 0).priority = "🟢 LOW" :=
  ⟨by decide,
    (tier_boundary_medium_is_low siteBoundary wZero defaultThresholds 0
      (by decide) (by decide) (by decide)).2.2 (by decide)⟩

/-- C1 counterexample: a site with three visits whose optimizer output
(1100 L) differs from the nominal volume, yet the Recommendation
carries the nominal 1000 L, not the optimizer output. -/
theorem recommendation_water_differs_from_optimizer :
    0 < siteAdjusted.visits.length ∧
    (get_recommendation siteAdjusted wZero defaultThresholds 2).water ≠
      calculate_optimal_water siteAdjusted := by
  decide

/-- C1 amended: for every site (any visit history), the water volume in
the Recommendation is exactly the unadjusted nominal volume
`calc_water`; the optimizer output never enters the Recommendation. -/
theorem recommendation_water_is_nominal (site : Site) (w : WeatherData)
    (th : Thresholds) (now : ℤ) :
    (get_recommendation site w th now).water = calc_water site := by
  simp only [get_recommendation]
  split
  · rfl
  · split
    · rfl
    · split
      · rfl
      · split
        · rfl
        · rfl

/-- C4 counterexample: with the moisture sequence [20, 30, 45] on
consecutive days the optimizer does not return the nominal volume
scaled by 1.10 (the average positive improvement is 12.5, inside
[5, 15]). -/
theorem scenarioD_not_scaled_up :
    calculate_optimal_water siteScenarioD ≠
      pyRound (((calc_water siteScenarioD : ℤ) : Q) * ((11 : Q) / 10)) := by
  decide

/-- C4 amended: for the moisture sequence [20, 30, 45] on consecutive
days the optimizer returns exactly the nominal volume; the 1.10 scaling
requires the average positive improvement to exceed 15, as with the
sequence [20, 36, 53]. -/
theorem scenarioD_nominal_and_high_improvement_scaled :
    calculate_optimal_water siteScenarioD = calc_water siteScenarioD ∧
    calculate_optimal_water siteScenarioD16 =
      pyRound (((calc_water siteScenarioD16 : ℤ) : Q) * ((11 : Q) / 10)) := by
  decide

/-- C9: a Sand site with one visit at moisture 30 five whole days
before `now` and no rain is predicted at 30 - 5*5 = 5, and with
critical threshold 25 its tier is High. -/
theorem scenarioA_prediction_and_tier :
    predict_moisture siteScenarioA wZero 5 = 5 ∧
    (get_recommendation siteScenarioA wZero defaultThresholds 5).priority = "🔴 HIGH" := by
  decide

/-- Inserting a key at the head of the cache makes it the lookup
result, mirroring a Python dict store. -/
theorem dictGet_cons_self {α : Type} (k : String) (v : α)
    (l : List (String × α)) : dictGet ((k, v) :: l) k = some v := by
  unfold dictGet
  rw [List.find?_cons_of_pos _ (by simp)]
  rfl

/-- C2 counterexample: two sites assigned the same station coordinate,
called within the same time bucket with an empty cache and a healthy
provider, trigger two provider fetches — the cache key is the site
name, so the entry is not shared across sites. -/
theorem shared_station_two_sites_two_fetches :
    dictGet stTwoSites.weather_stations "Site A" =
      dictGet stTwoSites.weather_stations "Site B" ∧
    two_get_fetches stTwoSites "Site A" "Site B" "20251012100" providerOK = 2 := by
  decide

/-- C2 amended: the cache entry is keyed by the pair (site name,
10-minute time bucket).  A second `get` call for the same site within
the same bucket issues no second provider fetch and returns the same
snapshot, provided the first call obtained a snapshot (cache hit or
successful fetch, i.e. it did not take the fallback path). -/
theorem same_site_second_get_cached (st : SessionState) (name bucket : String)
    (provider : Q → Q → Option RawForecast)
    (h : (get_site_weather st name bucket provider).usedFallback = false) :
    (get_site_weather (get_site_weather st name bucket provider).st name bucket
        provider).fetched = false ∧
    (get_site_weather (get_site_weather st name bucket provider).st name bucket
        provider).weather = (get_site_weather st name bucket provider).weather := by
  cases hc : dictGet st.site_weather (name ++ "_" ++ bucket) with
  | some w => simp [get_site_weather, hc]
  | none =>
    cases hp : provider (station_for st name).lat (station_for st name).lon with
    | none => exact absurd h (by simp [get_site_weather, hc, hp])
    | some raw =>
      cases hw : parse_forecast raw with
      | none => exact absurd h (by simp [get_site_weather, hc, hp, hw])
      | some w =>
        simp only [get_site_weather, hc, hp, hw]
        rw [dictGet_cons_self]
        exact ⟨rfl, rfl⟩

/-- C2 amended witness: the same site called twice in the same bucket
with a healthy provider fetches only on the first call. -/
theorem same_site_second_get_cached_witness :
    (get_site_weather stTwoSites "Site A" "20251012100" providerOK).usedFallback = false ∧
    (get_site_weather (get_site_weather stTwoSites "Site A" "20251012100"
        providerOK).st "Site A" "20251012100" providerOK).fetched = false :=
  ⟨by decide,
    (same_site_second_get_cached stTwoSites "Site A" "20251012100" providerOK
      (by decide)).1⟩

/-- C3: on a cache miss whose provider fetch fails (timeout, connection
error, non-success status — `provider` returns `none` — or a malformed
payload — `parse_forecast` returns `none`), `get_site_weather` returns
the process-wide default snapshot `st.weather` with the fallback branch
taken and the cache unchanged; the embedding is a total function, so no
error propagates to the caller. -/
theorem fetch_failure_returns_default (st : SessionState) (name bucket : String)
    (provider : Q → Q → Option RawForecast)
    (hmiss : dictGet st.site_weather (name ++ "_" ++ bucket) = none)
    (hfail : (provider (station_for st name).lat (station_for st name).lon).bind
      parse_forecast = none) :
    (get_site_weather st name bucket provider).weather = st.weather ∧
    (get_site_weather st name bucket provider).usedFallback = true ∧
    (get_site_weather st name bucket provider).st = st := by
  cases hp : provider (station_for st name).lat (station_for st name).lon with
  | none => simp [get_site_weather, hmiss, hp]
  | some raw =>
    have hpar : parse_forecast raw = none := by simpa [hp] using hfail
    simp [get_site_weather, hmiss, hp, hpar]

/-- C3 witness: with an empty cache and a provider whose fetch fails,
the call returns the configured default snapshot and takes the
fallback branch. -/
theorem fetch_failure_returns_default_witness :
    (get_site_weather stTwoSites "Site A" "20251012100" providerFail).weather =
      stTwoSites.weather ∧
    (get_site_weather stTwoSites "Site A" "20251012100" providerFail).usedFallback =
      true :=
  ⟨(fetch_failure_returns_default stTwoSites "Site A" "20251012100" providerFail
      (by decide) (by decide)).1,
    (fetch_failure_returns_default stTwoSites "Site A" "20251012100" providerFail
      (by decide) (by decide)).2.1⟩

end UVS
